import Mathlib

/-!
Verification of the client-side connection and state-synchronization layer
of the acousticar frontend (AudioContextProvider and WebSocketProvider).

JavaScript values that flow through the store and the wire protocol are
modelled by the JSON-like type `JVal`; objects are association lists of
string keys.  The object spread `{...a, ...b}` used by the reducer is
modelled by `spread`, which overrides existing keys in place and appends
new keys in order, matching JS semantics for objects with distinct keys.
-/

/-- JSON-like runtime value (argument/field values of the JS code). -/
inductive JVal where
  | null : JVal
  | bool : Bool → JVal
  | num : Rat → JVal
  | str : String → JVal
  | arr : List JVal → JVal
  | obj : List (String × JVal) → JVal
  deriving Repr

/-- Association-list lookup on an object's field list (`o[k]` in JS;
`none` models `undefined`). -/
def jlookup (fields : List (String × JVal)) (k : String) : Option JVal :=
  match fields with
  | [] => none
  | (k', v) :: rest => if k' = k then some v else jlookup rest k

/-- Set one key (override in place if present, else append), the effect of
one key of a JS object spread. -/
def setKey (fields : List (String × JVal)) (k : String) (v : JVal) :
    List (String × JVal) :=
  match fields with
  | [] => [(k, v)]
  | (k', v') :: rest =>
      if k' = k then (k, v) :: rest else (k', v') :: setKey rest k v

/-- JS object spread `{...a, ...b}`: keys of `b` override keys of `a`,
new keys are appended in order. -/
def spread (a b : List (String × JVal)) : List (String × JVal) :=
  b.foldl (fun acc kv => setKey acc kv.1 kv.2) a

/-- Field access `v[k]` on a JS value; `.null` models both absence and null. -/
def getField (v : JVal) (k : String) : JVal :=
  match v with
  | .obj fields => (jlookup fields k).getD .null
  | _ => .null

/-- Own enumerable fields of a value, as used by an object spread: spreading
a non-object contributes no keys. -/
def objFields (v : JVal) : List (String × JVal) :=
  match v with
  | .obj fields => fields
  | _ => []

/-- User-visible / logged side effects (toast and console calls). -/
inductive Effect where
  | toastSuccess : String → Effect
  | toastError : String → Effect
  | consoleLog : String → Effect
  | consoleWarn : String → Effect
  deriving Repr, DecidableEq

/-- The state held by AudioContextProvider's reducer (`initialState` shape). -/
structure AudioState where
  isConnected : Bool
  isAnalyzing : Bool
  isProcessing : Bool
  audioData : JVal
  analysisResults : JVal
  eqProfile : JVal
  soundstageProfile : JVal
  userPreferences : List (String × JVal)
  frequencyBands : List Rat
  eqGains : List JVal
  realTimeData : List (String × JVal)
  deriving Repr

/-- The `initialState` object of AudioContext. -/
def initialState : AudioState where
  isConnected := false
  isAnalyzing := false
  isProcessing := false
  audioData := .null
  analysisResults := .null
  eqProfile := .null
  soundstageProfile := .null
  userPreferences :=
    [("bass_preference", .num 0),
     ("treble_preference", .num 0),
     ("vocal_clarity", .num 0),
     ("soundstage_width", .num 0.5),
     ("height_preference", .num 0.5),
     ("depth_preference", .num 0.5),
     ("music_genre", .str "general"),
     ("listening_environment", .str "car"),
     ("speaker_count", .num 2),
     ("subwoofer_present", .bool false),
     ("amplifier_power", .num 50),
     ("cabin_size", .str "medium")]
  frequencyBands :=
    [20, 25, 31.5, 40, 50, 63, 80, 100, 125, 160, 200, 250, 315, 400, 500,
     630, 800, 1000, 1250, 1600, 2000, 2500, 3150, 4000, 5000, 6300, 8000,
     10000, 12500, 16000, 20000]
  eqGains := List.replicate 31 (.num 0)
  realTimeData :=
    [("frequencyResponse", .arr []),
     ("stereoWidth", .num 0.5),
     ("centerImageStrength", .num 0.5),
     ("depthPerception", .num 0.5),
     ("heightPerception", .num 0.5),
     ("noiseFloor", .num (-60)),
     ("dynamicRange", .num 0),
     ("thd", .num 0),
     ("imd", .num 0)]

/-- The action types dispatched to `audioReducer`.  The reducer's JS default
case returns the state unchanged; the Lean action type is closed, so every
dispatched action is one of these. -/
inductive AudioAction where
  | setConnectionStatus : Bool → AudioAction
  | setAnalyzing : Bool → AudioAction
  | setProcessing : Bool → AudioAction
  | setAudioData : JVal → AudioAction
  | setAnalysisResults : JVal → AudioAction
  | setEqProfile : JVal → AudioAction
  | setSoundstageProfile : JVal → AudioAction
  | updateUserPreferences : List (String × JVal) → AudioAction
  | updateEqGains : List JVal → AudioAction
  | updateRealTimeData : List (String × JVal) → AudioAction
  | resetAudioState : AudioAction
  deriving Repr

/-- The `audioReducer` switch: each case returns `{...state, field: payload}`;
the two UPDATE_* cases spread the payload into the named sub-object;
RESET_AUDIO_STATE clears the four analysis-session fields. -/
def audioReducer (state : AudioState) (action : AudioAction) : AudioState :=
  match action with
  | .setConnectionStatus payload => { state with isConnected := payload }
  | .setAnalyzing payload => { state with isAnalyzing := payload }
  | .setProcessing payload => { state with isProcessing := payload }
  | .setAudioData payload => { state with audioData := payload }
  | .setAnalysisResults payload => { state with analysisResults := payload }
  | .setEqProfile payload => { state with eqProfile := payload }
  | .setSoundstageProfile payload => { state with soundstageProfile := payload }
  | .updateUserPreferences payload =>
      { state with userPreferences := spread state.userPreferences payload }
  | .updateEqGains payload => { state with eqGains := payload }
  | .updateRealTimeData payload =>
      { state with realTimeData := spread state.realTimeData payload }
  | .resetAudioState =>
      { state with
          audioData := .null
          analysisResults := .null
          isAnalyzing := false
          isProcessing := false }

/-- Inbound message envelope `\x7b type, data?, message? \x7d` after JSON parsing. -/
structure Envelope where
  type : String
  data : JVal
  message : String
  deriving Repr

/-- AudioContextProvider's `handleWebSocketMessage`: the actions it
dispatches and the side effects it performs, keyed on `data.type`. -/
def handleWebSocketMessage (e : Envelope) : List AudioAction × List Effect :=
  match e.type with
  | "analysis_result" =>
      ([.setAnalysisResults e.data,
        .updateRealTimeData (objFields (getField e.data "acoustic_profile"))], [])
  | "processed_audio" => ([], [])
  | "optimized_audio" => ([], [])
  | "error" => ([], [.toastError e.message])
  | other => ([], [.consoleLog ("Unknown WebSocket message type: " ++ other)])

/-- Net effect of one inbound telemetry message on the store: fold the
dispatched actions through the reducer (dispatches run synchronously in
dispatch order). -/
def applyAudioMessage (s : AudioState) (e : Envelope) : AudioState :=
  (handleWebSocketMessage e).1.foldl audioReducer s

/-- WebSocket readyState constants. -/
inductive ReadyState where
  | CONNECTING : ReadyState
  | OPEN : ReadyState
  | CLOSING : ReadyState
  | CLOSED : ReadyState
  deriving Repr, DecidableEq

/-- Bytes handed to `ws.send`: either a plain string command or a
JSON-serialized envelope (`JSON.stringify`). -/
inductive Outbound where
  | text : String → Outbound
  | json : JVal → Outbound
  deriving Repr

/-- The mutable state of WebSocketProvider: the four useState values, the
two socket refs (readyState of the referenced socket, `none` when the ref
is null), the reconnect-attempt counter ref and whether a reconnect timer
is pending. -/
structure ProviderState where
  isConnected : Bool
  connectionStatus : String
  activeConnections : JVal
  lastMessage : Option Envelope
  audioWs : Option ReadyState
  controlWs : Option ReadyState
  reconnectAttempts : Nat
  reconnectTimerPending : Bool
  deriving Repr

/-- `maxReconnectAttempts = 5`. -/
def maxReconnectAttempts : Nat := 5

/-- `scheduleReconnect`: clear any pending timer, compute the backoff delay
`Math.min(1000 * Math.pow(2, reconnectAttempts.current), 30000)`, increment
the attempt counter, and arm the timer.  Returns the new state together
with the scheduled delay in milliseconds. -/
def scheduleReconnect (s : ProviderState) : ProviderState × Nat :=
  let delay := min (1000 * 2 ^ s.reconnectAttempts) 30000
  ({ s with reconnectAttempts := s.reconnectAttempts + 1,
            reconnectTimerPending := true }, delay)

/-- Audio socket `onopen`: set status to connected and reset the attempt
counter to 0. -/
def audioOnOpen (s : ProviderState) : ProviderState :=
  { s with connectionStatus := "connected", reconnectAttempts := 0 }

/-- Audio socket `onclose`: set status to disconnected, null the ref, and
either schedule exactly one reconnect (when attempts < max) or surface the
persistent-failure toast.  Second component: the scheduled delay, if any. -/
def audioOnClose (s : ProviderState) : ProviderState × Option Nat × List Effect :=
  let s1 := { s with connectionStatus := "disconnected", audioWs := none }
  if s1.reconnectAttempts < maxReconnectAttempts then
    let (s2, delay) := scheduleReconnect s1
    (s2, some delay, [])
  else
    (s1, none, [.toastError "Failed to reconnect to audio server"])

/-- Control socket `onopen`: set the isConnected flag. -/
def controlOnOpen (s : ProviderState) : ProviderState :=
  { s with isConnected := true }

/-- Control socket `onclose`: clear the isConnected flag and null the ref.
No reconnect is scheduled and no counter is touched. -/
def controlOnClose (s : ProviderState) : ProviderState :=
  { s with isConnected := false, controlWs := none }

/-- `sendAudioData`: send JSON on the audio socket if its ref is non-null
and OPEN, else warn. -/
def sendAudioData (s : ProviderState) (audioData : JVal) :
    List Outbound × List Effect :=
  if s.audioWs = some .OPEN then ([.json audioData], [])
  else ([], [.consoleWarn "Audio WebSocket not connected"])

/-- `sendControlCommand`: send JSON on the control socket if its ref is
non-null and OPEN, else warn. -/
def sendControlCommand (s : ProviderState) (command : JVal) :
    List Outbound × List Effect :=
  if s.controlWs = some .OPEN then ([.json command], [])
  else ([], [.consoleWarn "Control WebSocket not connected"])

/-- `ping`: send the plain string "ping" on the audio socket when it is
OPEN; otherwise do nothing at all (no warning, no error). -/
def ping (s : ProviderState) : List Outbound × List Effect :=
  if s.audioWs = some .OPEN then ([.text "ping"], []) else ([], [])

/-- `getStatus`: plain string "get_status" on the audio socket when OPEN. -/
def getStatus (s : ProviderState) : List Outbound × List Effect :=
  if s.audioWs = some .OPEN then ([.text "get_status"], []) else ([], [])

/-- `toggleAnalysis`: plain string "toggle_analysis" on the audio socket
when OPEN. -/
def toggleAnalysis (s : ProviderState) : List Outbound × List Effect :=
  if s.audioWs = some .OPEN then ([.text "toggle_analysis"], []) else ([], [])

/-- `clearBuffer`: plain string "clear_buffer" on the audio socket when
OPEN. -/
def clearBuffer (s : ProviderState) : List Outbound × List Effect :=
  if s.audioWs = some .OPEN then ([.text "clear_buffer"], []) else ([], [])

/-- `setPreferences`: envelope with type set_preferences. -/
def setPreferences (s : ProviderState) (preferences : JVal) :
    List Outbound × List Effect :=
  sendControlCommand s (.obj [("type", .str "set_preferences"),
                              ("preferences", preferences)])

/-- `enableEQ`: envelope with type enable_eq carrying the profile as its
eq_profile field, sent via `sendControlCommand`. -/
def enableEQ (s : ProviderState) (eqProfile : JVal) :
    List Outbound × List Effect :=
  sendControlCommand s (.obj [("type", .str "enable_eq"),
                              ("eq_profile", eqProfile)])

/-- `disableEQ`: envelope with type disable_eq. -/
def disableEQ (s : ProviderState) : List Outbound × List Effect :=
  sendControlCommand s (.obj [("type", .str "disable_eq")])

/-- `enableSoundstage`: envelope with type enable_soundstage. -/
def enableSoundstage (s : ProviderState) (soundstageProfile : JVal) :
    List Outbound × List Effect :=
  sendControlCommand s (.obj [("type", .str "enable_soundstage"),
                              ("soundstage_profile", soundstageProfile)])

/-- `disableSoundstage`: envelope with type disable_soundstage. -/
def disableSoundstage (s : ProviderState) : List Outbound × List Effect :=
  sendControlCommand s (.obj [("type", .str "disable_soundstage")])

/-- `getConnectionInfo`: envelope with type get_connection_info. -/
def getConnectionInfo (s : ProviderState) : List Outbound × List Effect :=
  sendControlCommand s (.obj [("type", .str "get_connection_info")])

/-- The heartbeat interval period of the ping effect: 30000 ms. -/
def pingIntervalMs : Nat := 30000

/-- One firing of the 30-second ping interval: `if (isConnected) ping()`.
The guard is the `isConnected` useState flag, which is set and cleared by
the CONTROL socket's onopen/onclose handlers.  The callback mutates no
provider state, so the resulting state is returned unchanged. -/
def pingTick (s : ProviderState) : ProviderState × List Outbound × List Effect :=
  if s.isConnected then (s, ping s) else (s, [], [])

/-- WebSocketProvider's `handleAudioMessage`: pure side-effect dispatch,
no provider-state mutation in any branch. -/
def handleAudioMessage (e : Envelope) : List Effect :=
  match e.type with
  | "analysis_result" => []
  | "processed_audio" => []
  | "optimized_audio" => []
  | "error" => [.toastError e.message]
  | other => [.consoleLog ("Unknown audio message type: " ++ other)]

/-- WebSocketProvider's `handleControlMessage`: acknowledgment toasts,
the connection_info state update, and the logged default case. -/
def handleControlMessage (s : ProviderState) (e : Envelope) :
    ProviderState × List Effect :=
  match e.type with
  | "preferences_updated" => (s, [.toastSuccess "Preferences updated"])
  | "eq_enabled" => (s, [.toastSuccess "EQ enabled"])
  | "eq_disabled" => (s, [.toastSuccess "EQ disabled"])
  | "soundstage_enabled" =>
      (s, [.toastSuccess "Soundstage optimization enabled"])
  | "soundstage_disabled" =>
      (s, [.toastSuccess "Soundstage optimization disabled"])
  | "connection_info" =>
      ({ s with activeConnections := getField e.data "active_connections" }, [])
  | "error" => (s, [.toastError e.message])
  | other => (s, [.consoleLog ("Unknown control message type: " ++ other)])

/-- Iterated unplanned closes of the audio channel: run `audioOnClose`
`n` times, collecting the scheduled reconnect delays in order. -/
def iterateAudioCloses (s : ProviderState) : Nat → ProviderState × List Nat
  | 0 => (s, [])
  | n + 1 =>
      let r := audioOnClose s
      let rest := iterateAudioCloses r.1 n
      (rest.1, r.2.1.toList ++ rest.2)

/-- The initial provider state: the useState initial values and null refs
of WebSocketProvider, before any socket opens. -/
def initialProviderState : ProviderState where
  isConnected := false
  connectionStatus := "disconnected"
  activeConnections := .num 0
  lastMessage := none
  audioWs := none
  controlWs := none
  reconnectAttempts := 0
  reconnectTimerPending := false

/-- A provider state in which both sockets are open (after both onopen
handlers have fired). -/
def connectedProviderState : ProviderState :=
  { initialProviderState with
      isConnected := true
      connectionStatus := "connected"
      audioWs := some .OPEN
      controlWs := some .OPEN }

/-- Clamp a rational into the closed interval lo..hi. -/
def clampRat (lo hi x : Rat) : Rat := max lo (min hi x)

/-- Modelled from the spec: the client-side range validation of an
EqProfile before sending, clamping each numeric gain into the documented
nominal range -12..+12 dB.  No such validation exists anywhere in src
(`enableEQ` passes the profile through to `sendControlCommand` verbatim);
this definition follows the spec's words so the sent payload can be
compared against the spec-validated payload. -/
def validateEqProfileSpec (p : JVal) : JVal :=
  match p with
  | .obj fields =>
      .obj (fields.map (fun kv =>
        if kv.1 = "gains" then
          (kv.1,
            match kv.2 with
            | .arr gs =>
                .arr (gs.map (fun g =>
                  match g with
                  | .num x => .num (clampRat (-12) 12 x)
                  | other => other))
            | other => other)
        else kv))
  | other => other


/-! ### Lemmas about association-list lookup and object spread -/

theorem jlookup_setKey_self (a : List (String × JVal)) (k : String) (v : JVal) :
    jlookup (setKey a k v) k = some v := by
  induction a with
  | nil => simp [setKey, jlookup]
  | cons hd tl ih =>
      obtain ⟨k', v'⟩ := hd
      by_cases hk : k' = k
      · simp [setKey, hk, jlookup]
      · simp [setKey, hk, jlookup, ih]

theorem jlookup_setKey_of_ne (a : List (String × JVal)) (k j : String)
    (v : JVal) (h : k ≠ j) : jlookup (setKey a k v) j = jlookup a j := by
  induction a with
  | nil => simp [setKey, jlookup, h]
  | cons hd tl ih =>
      obtain ⟨k', v'⟩ := hd
      by_cases hk : k' = k
      · subst hk
        simp [setKey, jlookup, h, ih]
      · simp [setKey, hk, jlookup, ih]

theorem jlookup_eq_none_of_not_mem (b : List (String × JVal)) (k : String)
    (h : k ∉ b.map Prod.fst) : jlookup b k = none := by
  induction b with
  | nil => simp [jlookup]
  | cons hd tl ih =>
      obtain ⟨k', v'⟩ := hd
      simp only [List.map_cons, List.mem_cons] at h
      push_neg at h
      have hk : ¬ (k' = k) := fun hh => h.1 hh.symm
      simp [jlookup, hk, ih h.2]

theorem spread_cons (a : List (String × JVal)) (k : String) (v : JVal)
    (tl : List (String × JVal)) :
    spread a ((k, v) :: tl) = spread (setKey a k v) tl := rfl

theorem jlookup_spread_of_none (b a : List (String × JVal)) (k : String)
    (h : jlookup b k = none) : jlookup (spread a b) k = jlookup a k := by
  induction b generalizing a with
  | nil => simp [spread]
  | cons hd tl ih =>
      obtain ⟨k0, v0⟩ := hd
      have hk0 : ¬ (k0 = k) := by
        intro hh
        simp [jlookup, hh] at h
      have htl : jlookup tl k = none := by
        simpa [jlookup, hk0] using h
      rw [spread_cons, ih (setKey a k0 v0) htl,
        jlookup_setKey_of_ne a k0 k v0 hk0]

theorem jlookup_spread_of_some (b a : List (String × JVal)) (k : String)
    (v : JVal) (hnd : (b.map Prod.fst).Nodup) (h : jlookup b k = some v) :
    jlookup (spread a b) k = some v := by
  induction b generalizing a with
  | nil => simp [jlookup] at h
  | cons hd tl ih =>
      obtain ⟨k0, v0⟩ := hd
      simp only [List.map_cons, List.nodup_cons] at hnd
      by_cases hk0 : k0 = k
      · subst hk0
        have hv : v0 = v := by simpa [jlookup] using h
        have htl : jlookup tl k0 = none :=
          jlookup_eq_none_of_not_mem tl k0 hnd.1
        rw [spread_cons, jlookup_spread_of_none tl (setKey a k0 v0) k0 htl,
          jlookup_setKey_self, hv]
      · have htl : jlookup tl k = some v := by
          simpa [jlookup, hk0] using h
        rw [spread_cons]
        exact ih (setKey a k0 v0) hnd.2 htl

/-- Unfolding of `audioOnClose` while the attempt counter is below the cap:
exactly one reconnect is scheduled, with the backoff delay computed from
the pre-close counter, and the counter is incremented by one. -/
theorem audioOnClose_of_lt (s : ProviderState)
    (h : s.reconnectAttempts < maxReconnectAttempts) :
    audioOnClose s =
      ({ s with connectionStatus := "disconnected", audioWs := none,
                reconnectAttempts := s.reconnectAttempts + 1,
                reconnectTimerPending := true },
       some (min (1000 * 2 ^ s.reconnectAttempts) 30000), []) := by
  simp [audioOnClose, scheduleReconnect, h]

/-- Projection equations for one step of `iterateAudioCloses`. -/
theorem iterateAudioCloses_succ_fst (s : ProviderState) (n : Nat) :
    (iterateAudioCloses s (n + 1)).1 =
      (iterateAudioCloses (audioOnClose s).1 n).1 := rfl

/-- The delays of `n + 1` closes begin with the delay scheduled by the
first close. -/
theorem iterateAudioCloses_succ_snd (s : ProviderState) (n : Nat) :
    (iterateAudioCloses s (n + 1)).2 =
      (audioOnClose s).2.1.toList ++ (iterateAudioCloses (audioOnClose s).1 n).2 := rfl

/-- Attempt counter after one below-cap close. -/
theorem audioOnClose_attempts_of_lt (s : ProviderState)
    (h : s.reconnectAttempts < maxReconnectAttempts) :
    (audioOnClose s).1.reconnectAttempts = s.reconnectAttempts + 1 := by
  simp [audioOnClose, scheduleReconnect, h]

/-- Scheduled delay of one below-cap close. -/
theorem audioOnClose_delay_of_lt (s : ProviderState)
    (h : s.reconnectAttempts < maxReconnectAttempts) :
    (audioOnClose s).2.1 = some (min (1000 * 2 ^ s.reconnectAttempts) 30000) := by
  simp [audioOnClose, scheduleReconnect, h]

/-- Iterated closes, general form: starting from any attempt count `a`
with `a + n` still within the cap, the `n` scheduled delays follow the
exponential-backoff formula from `a` upward and the counter ends at
`a + n`. -/
theorem iterateAudioCloses_spec (n : Nat) :
    ∀ s : ProviderState, s.reconnectAttempts + n ≤ maxReconnectAttempts →
      (iterateAudioCloses s n).2 =
        (List.range n).map
          (fun k => min (1000 * 2 ^ (s.reconnectAttempts + k)) 30000)
      ∧ (iterateAudioCloses s n).1.reconnectAttempts =
          s.reconnectAttempts + n := by
  induction n with
  | zero => intro s _; simp [iterateAudioCloses]
  | succ n ih =>
      intro s h
      have hlt : s.reconnectAttempts < maxReconnectAttempts := by omega
      have hatt := audioOnClose_attempts_of_lt s hlt
      have hdel := audioOnClose_delay_of_lt s hlt
      obtain ⟨ih1, ih2⟩ := ih (audioOnClose s).1 (by omega)
      constructor
      · rw [iterateAudioCloses_succ_snd, hdel, ih1, hatt]
        have harith : ∀ k : Nat,
            s.reconnectAttempts + 1 + k = s.reconnectAttempts + (k + 1) := by
          omega
        simp [List.range_succ_eq_map, List.map_map, Function.comp,
          Nat.succ_eq_add_one, harith]
      · rw [iterateAudioCloses_succ_fst, ih2, hatt]
        omega

/-! ### Claim theorems -/

/-- C1: for every sequence of N consecutive unplanned closes of the audio
channel with N below the cap of 5, starting from attempt count 0, the N
scheduled reconnect delays are min(1000 * 2^k, 30000) for k = 0..N-1, i.e.
the first N entries of 1000, 2000, 4000, 8000, 16000 ms in order, and the
attempt count has incremented by exactly 1 per scheduled attempt. -/
theorem C1_reconnect_backoff (s : ProviderState) (N : Nat)
    (h0 : s.reconnectAttempts = 0) (hN : N < maxReconnectAttempts) :
    (iterateAudioCloses s N).2 =
      (List.range N).map (fun k => min (1000 * 2 ^ k) 30000)
    ∧ (iterateAudioCloses s N).2 = List.take N [1000, 2000, 4000, 8000, 16000]
    ∧ (iterateAudioCloses s N).1.reconnectAttempts = N := by
  obtain ⟨h1, h2⟩ := iterateAudioCloses_spec N s (by omega)
  rw [h0] at h1 h2
  simp only [Nat.zero_add] at h1 h2
  refine ⟨h1, ?_, h2⟩
  rw [h1]
  simp only [maxReconnectAttempts] at hN
  interval_cases N <;> rfl

theorem C1_witness :
    (iterateAudioCloses initialProviderState 4).2 =
      List.take 4 [1000, 2000, 4000, 8000, 16000]
    ∧ (iterateAudioCloses initialProviderState 4).1.reconnectAttempts = 4 :=
  ⟨(C1_reconnect_backoff initialProviderState 4 rfl (by decide)).2.1,
   (C1_reconnect_backoff initialProviderState 4 rfl (by decide)).2.2⟩

/-- C2 counterexample: the control channel does NOT recover through a
reconnection state machine.  In a concrete connected state whose attempt
count 0 is below the cap, an unplanned control-channel close leaves no
reconnect timer pending and merely marks the channel disconnected, so the
claim that each of the two channels schedules a reconnect is false. -/
theorem C2_counterexample :
    connectedProviderState.reconnectAttempts < maxReconnectAttempts
    ∧ (controlOnClose connectedProviderState).reconnectTimerPending = false
    ∧ (controlOnClose connectedProviderState).isConnected = false
    ∧ (controlOnClose connectedProviderState).controlWs = none := by
  refine ⟨by decide, rfl, rfl, rfl⟩

/-- C2 (amended): an unplanned close of the telemetry (audio) channel with
attempts below the cap schedules exactly one reconnect and leaves the
control channel's connection state untouched; an unplanned close of the
control channel schedules no reconnect at all — it only clears the
isConnected flag and its socket ref — and leaves the telemetry channel's
state and the reconnect attempt counter unchanged. -/
theorem C2_channel_independence (s : ProviderState)
    (h : s.reconnectAttempts < maxReconnectAttempts) :
    (audioOnClose s).2.1 = some (min (1000 * 2 ^ s.reconnectAttempts) 30000)
    ∧ (audioOnClose s).1.isConnected = s.isConnected
    ∧ (audioOnClose s).1.controlWs = s.controlWs
    ∧ (controlOnClose s).reconnectTimerPending = s.reconnectTimerPending
    ∧ (controlOnClose s).reconnectAttempts = s.reconnectAttempts
    ∧ (controlOnClose s).audioWs = s.audioWs
    ∧ (controlOnClose s).connectionStatus = s.connectionStatus := by
  refine ⟨audioOnClose_delay_of_lt s h, ?_, ?_, rfl, rfl, rfl, rfl⟩
  · simp [audioOnClose, scheduleReconnect, h]
  · simp [audioOnClose, scheduleReconnect, h]

theorem C2_witness :
    (audioOnClose connectedProviderState).2.1 = some 1000
    ∧ (controlOnClose connectedProviderState).reconnectAttempts = 0 :=
  ⟨(C2_channel_independence connectedProviderState (by decide)).1,
   (C2_channel_independence connectedProviderState (by decide)).2.2.2.2.1⟩

/-- C3 counterexample: the UPDATE_EQ_GAINS case performs no length
validation: dispatching an empty payload against the initial state yields
a gains sequence of length 0, not 31. -/
theorem C3_counterexample :
    ((audioReducer initialState (.updateEqGains [])).eqGains).length ≠ 31 := by
  decide

/-- C3 (amended): UPDATE_EQ_GAINS replaces eqGains wholesale with the
payload as given — no rejection, padding or truncation — so the resulting
length equals the payload's length and is 31 exactly when the payload has
31 entries. -/
theorem C3_eq_gains_replace (s : AudioState) (g : List JVal) :
    (audioReducer s (.updateEqGains g)).eqGains = g
    ∧ ((audioReducer s (.updateEqGains g)).eqGains.length = 31 ↔
        g.length = 31) :=
  ⟨rfl, Iff.rfl⟩

/-- C4 counterexample: UPDATE_USER_PREFERENCES spreads the whole payload
into userPreferences, so a key that is not a known UserPreferences field
("hacked_key") survives into the resulting object instead of being
ignored, and no type or range validation is applied anywhere. -/
theorem C4_counterexample :
    jlookup ((audioReducer initialState
        (.updateUserPreferences [("hacked_key", .num 1)])).userPreferences)
      "hacked_key" = some (.num 1)
    ∧ "hacked_key" ∉ initialState.userPreferences.map Prod.fst :=
  ⟨rfl, by decide⟩

/-- C4 (amended): UPDATE_USER_PREFERENCES shallow-merges the payload into
userPreferences with no validation and no filtering: every payload key —
known or unknown — ends up bound to the payload's value, and every key
absent from the payload keeps its previous value. -/
theorem C4_preferences_merge (s : AudioState) (p : List (String × JVal))
    (hnd : (p.map Prod.fst).Nodup) :
    (∀ k v, jlookup p k = some v →
      jlookup ((audioReducer s (.updateUserPreferences p)).userPreferences) k
        = some v)
    ∧ (∀ k, jlookup p k = none →
      jlookup ((audioReducer s (.updateUserPreferences p)).userPreferences) k
        = jlookup s.userPreferences k) := by
  constructor
  · intro k v h
    exact jlookup_spread_of_some p s.userPreferences k v hnd h
  · intro k h
    exact jlookup_spread_of_none p s.userPreferences k h

theorem C4_witness :
    jlookup ((audioReducer initialState (.updateUserPreferences
        [("bass_preference", .num 0.5), ("hacked_key", .num 1)])).userPreferences)
      "hacked_key" = some (.num 1)
    ∧ jlookup ((audioReducer initialState (.updateUserPreferences
        [("bass_preference", .num 0.5), ("hacked_key", .num 1)])).userPreferences)
      "treble_preference" = jlookup initialState.userPreferences "treble_preference" :=
  ⟨(C4_preferences_merge initialState
      [("bass_preference", .num 0.5), ("hacked_key", .num 1)] (by decide)).1
      "hacked_key" (.num 1) rfl,
   (C4_preferences_merge initialState
      [("bass_preference", .num 0.5), ("hacked_key", .num 1)] (by decide)).2
      "treble_preference" rfl⟩

/-- C5: handling an inbound telemetry message tagged analysis_result
replaces analysisResults wholesale with the message's data payload and
field-level-merges the payload's acoustic_profile metrics sub-object into
realTimeData: every metrics key present in the message takes the message's
value, and every realTimeData key absent from the message keeps its
previous value. -/
theorem C5_analysis_result (s : AudioState) (e : Envelope)
    (h : e.type = "analysis_result")
    (hnd : ((objFields (getField e.data "acoustic_profile")).map Prod.fst).Nodup) :
    (applyAudioMessage s e).analysisResults = e.data
    ∧ (∀ k v, jlookup (objFields (getField e.data "acoustic_profile")) k = some v →
        jlookup (applyAudioMessage s e).realTimeData k = some v)
    ∧ (∀ k, jlookup (objFields (getField e.data "acoustic_profile")) k = none →
        jlookup (applyAudioMessage s e).realTimeData k
          = jlookup s.realTimeData k) := by
  have hw : handleWebSocketMessage e =
      ([.setAnalysisResults e.data,
        .updateRealTimeData (objFields (getField e.data "acoustic_profile"))],
       []) := by
    unfold handleWebSocketMessage
    rw [h]
    rfl
  have happ : applyAudioMessage s e =
      audioReducer (audioReducer s (.setAnalysisResults e.data))
        (.updateRealTimeData (objFields (getField e.data "acoustic_profile"))) := by
    rw [applyAudioMessage, hw]
    rfl
  refine ⟨?_, ?_, ?_⟩
  · rw [happ]
    rfl
  · intro k v hkv
    rw [happ]
    exact jlookup_spread_of_some _ _ _ _ hnd hkv
  · intro k hk
    rw [happ]
    exact jlookup_spread_of_none _ _ _ hk

theorem C5_witness :
    (applyAudioMessage initialState
        ⟨"analysis_result",
         .obj [("acoustic_profile", .obj [("stereoWidth", .num 0.8)])],
         ""⟩).analysisResults
      = .obj [("acoustic_profile", .obj [("stereoWidth", .num 0.8)])]
    ∧ jlookup (applyAudioMessage initialState
        ⟨"analysis_result",
         .obj [("acoustic_profile", .obj [("stereoWidth", .num 0.8)])],
         ""⟩).realTimeData "stereoWidth" = some (.num 0.8)
    ∧ jlookup (applyAudioMessage initialState
        ⟨"analysis_result",
         .obj [("acoustic_profile", .obj [("stereoWidth", .num 0.8)])],
         ""⟩).realTimeData "noiseFloor"
      = jlookup initialState.realTimeData "noiseFloor" :=
  ⟨(C5_analysis_result initialState
      ⟨"analysis_result",
       .obj [("acoustic_profile", .obj [("stereoWidth", .num 0.8)])], ""⟩
      rfl (by decide)).1,
   (C5_analysis_result initialState
      ⟨"analysis_result",
       .obj [("acoustic_profile", .obj [("stereoWidth", .num 0.8)])], ""⟩
      rfl (by decide)).2.1 "stereoWidth" (.num 0.8) rfl,
   (C5_analysis_result initialState
      ⟨"analysis_result",
       .obj [("acoustic_profile", .obj [("stereoWidth", .num 0.8)])], ""⟩
      rfl (by decide)).2.2 "noiseFloor" rfl⟩

/-- C6: RESET_AUDIO_STATE returns audioData, analysisResults, isAnalyzing
and isProcessing to their initial values while every other field —
eqGains, eqProfile, soundstageProfile, userPreferences, isConnected,
frequencyBands and realTimeData — is exactly its pre-reset value. -/
theorem C6_reset_frame (s : AudioState) :
    (audioReducer s .resetAudioState).audioData = initialState.audioData
    ∧ (audioReducer s .resetAudioState).analysisResults
        = initialState.analysisResults
    ∧ (audioReducer s .resetAudioState).isAnalyzing = initialState.isAnalyzing
    ∧ (audioReducer s .resetAudioState).isProcessing = initialState.isProcessing
    ∧ (audioReducer s .resetAudioState).eqGains = s.eqGains
    ∧ (audioReducer s .resetAudioState).eqProfile = s.eqProfile
    ∧ (audioReducer s .resetAudioState).soundstageProfile = s.soundstageProfile
    ∧ (audioReducer s .resetAudioState).userPreferences = s.userPreferences
    ∧ (audioReducer s .resetAudioState).isConnected = s.isConnected
    ∧ (audioReducer s .resetAudioState).frequencyBands = s.frequencyBands
    ∧ (audioReducer s .resetAudioState).realTimeData = s.realTimeData :=
  ⟨rfl, rfl, rfl, rfl, rfl, rfl, rfl, rfl, rfl, rfl, rfl⟩

/-- C7 counterexample: no range validation is applied on the enable_eq
path.  With the control channel connected and a profile whose gain 100 dB
lies far outside the documented -12..+12 range, the code sends the profile
verbatim, while the spec-modelled validation would clamp the gain to 12;
the sent eq_profile therefore does not deep-equal the validated profile. -/
theorem C7_counterexample :
    enableEQ connectedProviderState (.obj [("gains", .arr [.num 100])])
      = ([.json (.obj [("type", .str "enable_eq"),
                       ("eq_profile", .obj [("gains", .arr [.num 100])])])], [])
    ∧ validateEqProfileSpec (.obj [("gains", .arr [.num 100])])
        = .obj [("gains", .arr [.num 12])]
    ∧ (JVal.obj [("gains", .arr [.num 100])]
        ≠ validateEqProfileSpec (.obj [("gains", .arr [.num 100])])) := by
  refine ⟨rfl, rfl, ?_⟩
  intro hcontra
  rw [show validateEqProfileSpec (.obj [("gains", .arr [.num 100])])
        = .obj [("gains", .arr [.num 12])] from rfl] at hcontra
  injection hcontra with h1
  injection h1 with h2 _
  injection h2 with _ h3
  injection h3 with h4
  injection h4 with h5 _
  injection h5 with h6
  exact absurd h6 (by norm_num)

/-- C7 (amended): with the control channel Connected, enable_eq(profile)
produces exactly one serialized outbound message whose type field is
"enable_eq" and whose eq_profile field deep-equals the supplied profile
exactly as given — no range validation is applied to it. -/
theorem C7_enable_eq (s : ProviderState) (profile : JVal)
    (h : s.controlWs = some .OPEN) :
    enableEQ s profile
      = ([.json (.obj [("type", .str "enable_eq"),
                       ("eq_profile", profile)])], [])
    ∧ (enableEQ s profile).1.length = 1
    ∧ getField (.obj [("type", .str "enable_eq"), ("eq_profile", profile)])
        "eq_profile" = profile := by
  refine ⟨?_, ?_, rfl⟩
  · simp [enableEQ, sendControlCommand, h]
  · simp [enableEQ, sendControlCommand, h]

theorem C7_witness :
    enableEQ connectedProviderState (.obj [("gains", .arr [.num 3])])
      = ([.json (.obj [("type", .str "enable_eq"),
                       ("eq_profile", .obj [("gains", .arr [.num 3])])])], []) :=
  (C7_enable_eq connectedProviderState (.obj [("gains", .arr [.num 3])]) rfl).1

/-- C8: an inbound message whose type tag is not in the dispatch table of
either channel's handler leaves the Application State Store unchanged
(zero dispatched actions, so the reducer state is exactly the old state),
leaves the provider state unchanged, and its only effect is a console log
of the unknown type — no thrown error, the handlers are total. -/
theorem C8_unknown_type_dropped (s : AudioState) (p : ProviderState)
    (e : Envelope)
    (h1 : e.type ∉ (["analysis_result", "processed_audio", "optimized_audio",
        "error"] : List String))
    (h2 : e.type ∉ (["preferences_updated", "eq_enabled", "eq_disabled",
        "soundstage_enabled", "soundstage_disabled", "connection_info",
        "error"] : List String)) :
    applyAudioMessage s e = s
    ∧ (handleWebSocketMessage e).1 = []
    ∧ (handleWebSocketMessage e).2
        = [.consoleLog ("Unknown WebSocket message type: " ++ e.type)]
    ∧ handleAudioMessage e
        = [.consoleLog ("Unknown audio message type: " ++ e.type)]
    ∧ (handleControlMessage p e).1 = p
    ∧ (handleControlMessage p e).2
        = [.consoleLog ("Unknown control message type: " ++ e.type)] := by
  have hw : handleWebSocketMessage e =
      ([], [.consoleLog ("Unknown WebSocket message type: " ++ e.type)]) := by
    unfold handleWebSocketMessage
    split <;> simp_all
  have ha : handleAudioMessage e =
      [.consoleLog ("Unknown audio message type: " ++ e.type)] := by
    unfold handleAudioMessage
    split <;> simp_all
  have hc : handleControlMessage p e =
      (p, [.consoleLog ("Unknown control message type: " ++ e.type)]) := by
    unfold handleControlMessage
    split <;> simp_all
  refine ⟨?_, ?_, ?_, ha, ?_, ?_⟩
  · rw [applyAudioMessage, hw]
    rfl
  · rw [hw]
  · rw [hw]
  · rw [hc]
  · rw [hc]

theorem C8_witness :
    applyAudioMessage initialState ⟨"bogus_type", .null, ""⟩ = initialState
    ∧ (handleControlMessage initialProviderState
        ⟨"bogus_type", .null, ""⟩).1 = initialProviderState :=
  ⟨(C8_unknown_type_dropped initialState initialProviderState
      ⟨"bogus_type", .null, ""⟩ (by decide) (by decide)).1,
   (C8_unknown_type_dropped initialState initialProviderState
      ⟨"bogus_type", .null, ""⟩ (by decide) (by decide)).2.2.2.2.1⟩

/-- C9 counterexample: heartbeat emission is NOT gated on the telemetry
channel.  In a state where the telemetry (audio) socket is OPEN and its
status is connected but the control channel's isConnected flag is false,
a firing of the 30-second interval emits nothing. -/
theorem C9_counterexample :
    ({ connectedProviderState with isConnected := false }
        : ProviderState).audioWs = some .OPEN
    ∧ ({ connectedProviderState with isConnected := false }
        : ProviderState).connectionStatus = "connected"
    ∧ (pingTick { connectedProviderState with isConnected := false }).2.1
        = [] :=
  ⟨rfl, rfl, rfl⟩

/-- C9 (amended): each firing of the fixed 30000 ms heartbeat interval
emits the plain-string ping on the telemetry socket exactly when the
CONTROL channel's isConnected flag is set and the telemetry socket is
OPEN; the tick mutates no provider state at all, so in particular it
never increments or resets the reconnect attempt counter. -/
theorem C9_ping_decoupled (s : ProviderState) :
    ((pingTick s).2.1 = [.text "ping"] ↔
      (s.isConnected = true ∧ s.audioWs = some .OPEN))
    ∧ (pingTick s).1 = s
    ∧ (pingTick s).1.reconnectAttempts = s.reconnectAttempts
    ∧ pingIntervalMs = 30000 := by
  refine ⟨?_, ?_, ?_, rfl⟩
  · cases hc : s.isConnected with
    | false => simp [pingTick, hc]
    | true =>
        by_cases ha : s.audioWs = some .OPEN <;>
          simp [pingTick, ping, hc, ha]
  · by_cases hc : s.isConnected = true <;> simp [pingTick, hc]
  · by_cases hc : s.isConnected = true <;> simp [pingTick, hc]

/-- C10: each of the four plain-string telemetry commands is a silent
no-op when the audio socket ref is null or not OPEN — zero outbound
messages, zero effects (no warning, and the functions are total so
nothing is thrown) — whereas a control-channel command sent while the
control socket is not OPEN produces zero outbound messages plus exactly
the logged warning. -/
theorem C10_telemetry_commands_silent (s : ProviderState) (cmd : JVal)
    (h : s.audioWs ≠ some .OPEN) (hc : s.controlWs ≠ some .OPEN) :
    ping s = ([], [])
    ∧ getStatus s = ([], [])
    ∧ toggleAnalysis s = ([], [])
    ∧ clearBuffer s = ([], [])
    ∧ sendControlCommand s cmd
        = ([], [.consoleWarn "Control WebSocket not connected"]) := by
  simp [ping, getStatus, toggleAnalysis, clearBuffer, sendControlCommand,
    h, hc]

theorem C10_witness :
    ping initialProviderState = ([], [])
    ∧ sendControlCommand initialProviderState
        (.obj [("type", .str "disable_eq")])
      = ([], [.consoleWarn "Control WebSocket not connected"]) :=
  ⟨(C10_telemetry_commands_silent initialProviderState
      (.obj [("type", .str "disable_eq")]) (by decide) (by decide)).1,
   (C10_telemetry_commands_silent initialProviderState
      (.obj [("type", .str "disable_eq")]) (by decide) (by decide)).2.2.2.2⟩
